import Mathlib

/-!
Verification of the order/payment lifecycle backend (Express + PhonePe + Supabase).

The JavaScript handlers are shallowly embedded as pure Lean functions.  External
collaborators (the Supabase order store, the PhonePe HTTP API, the Node `crypto`,
`path` and `fs` modules) are passed in as function arguments or pre-resolved
results, exactly as the handlers consume them.  JavaScript objects with optional
keys become structures with `Option` fields; JavaScript truthiness on strings and
numbers is modelled explicitly (`jsStrTruthy`, `jsNumTruthy`); object spread
`{...old, ...updates}` becomes per-field override.  Side effects (store reads and
writes, file-system access, outbound API calls) are recorded in an explicit
action trace so that ordering and absence of effects can be stated.
-/

/-- JavaScript truthiness of an optional string: `undefined` and `""` are falsy. -/
def jsStrTruthy : Option String → Bool
  | none => false
  | some s => !(s == "")

/-- JavaScript `x || d` for an optional string `x` and string default `d`. -/
def jsStrOr (x : Option String) (d : String) : String :=
  match x with
  | some s => if s == "" then d else s
  | none => d

/-- JavaScript `a || b` where both operands are optional strings: returns `a`
when truthy, otherwise returns `b` unexamined (mirroring `||` yielding its last
operand). -/
def jsOrOpt (a b : Option String) : Option String :=
  if jsStrTruthy a then a else b

/-- JavaScript `String(x)` on an optional string: `String(undefined)` is the
literal text `"undefined"`. -/
def jsStringOfOpt : Option String → String
  | none => "undefined"
  | some s => s

/-- JavaScript truthiness of an optional number: `undefined` and `0` are falsy. -/
def jsNumTruthy : Option ℚ → Bool
  | none => false
  | some q => !(q == 0)

/-- JavaScript `Math.round`: round half toward positive infinity. -/
def jsMathRound (q : ℚ) : ℤ := ⌊q + 1/2⌋

/-- JavaScript `Math.abs`. -/
def jsMathAbs (q : ℚ) : ℚ := if q < 0 then -q else q

/-- One line item of an order, as sent in the request body and stored in the
order row (`{id, productId, product_id, name, price, quantity}` with any key
possibly absent). -/
structure OrderItem where
  id : Option String := none
  productId : Option String := none
  product_id : Option String := none
  name : Option String := none
  price : Option ℚ := none
  quantity : Option ℚ := none
deriving DecidableEq

/-- The `payment` JSON sub-record of an order row.  Every key is optional, as in
the stored JSON object.  Timestamps (`paidAt`, `lastCheckedAt`) are modelled as
natural-number instants. -/
structure PaymentState where
  transactionId : Option String := none
  merchantOrderId : Option String := none
  gateway : Option String := none
  amount : Option ℚ := none
  status : Option String := none
  gatewayTransactionId : Option String := none
  paymentMethod : Option String := none
  paidAt : Option ℕ := none
  failureReason : Option String := none
  lastCheckedAt : Option ℕ := none
  paymentUrl : Option String := none
deriving DecidableEq

/-- An order row as read back from the store.  `items` is `none` when the
column is not an array (`Array.isArray` fails); individual elements can be
`null`, hence `Option OrderItem`.  `product_id` is the top-level fallback
column consulted by the download handlers. -/
structure Order where
  id : ℕ
  items : Option (List (Option OrderItem)) := none
  product_id : Option String := none
  payment : PaymentState := {}
  total_amount : Option ℚ := none
deriving DecidableEq

/-- The provider status payload returned by `checkPaymentStatus`, as consumed by
the callback handler (`state`, `transactionId`, `paymentInstrument?.type`,
`error`). -/
structure StatusResponse where
  state : Option String := none
  transactionId : Option String := none
  paymentInstrumentType : Option String := none
  error : Option String := none
deriving DecidableEq

/-- The reconciliation merge performed by the GET callback handler
(`src/server/api/index.js` lines 670-701): `updateOrderStatus(updates)` writes
`{...order.payment, ...updates}` where `updates` is chosen by the `switch` on
`statusResponse?.state`:

* `"COMPLETED"`: `{status: "completed", gatewayTransactionId:
  statusResponse.transactionId, paymentMethod:
  statusResponse.paymentInstrument?.type || "UPI", paidAt: new Date()}`;
* `"FAILED"`: `{status: "failed", failureReason: statusResponse.error ||
  "Payment failed"}`;
* `"PENDING"` and `default`: `{status: "pending", lastCheckedAt: new Date()}`. -/
def reconcilePayment (p : PaymentState) (s : StatusResponse) (now : ℕ) : PaymentState :=
  if s.state == some "COMPLETED" then
    { p with status := some "completed",
             gatewayTransactionId := s.transactionId,
             paymentMethod := some (jsStrOr s.paymentInstrumentType "UPI"),
             paidAt := some now }
  else if s.state == some "FAILED" then
    { p with status := some "failed",
             failureReason := some (jsStrOr s.error "Payment failed") }
  else
    { p with status := some "pending", lastCheckedAt := some now }

/-- Modelled from the spec: the fixed status-mapping table of §4.3
(`COMPLETED→completed`, `FAILED→failed`, anything else→`pending`). -/
def specStatusTable (provider : Option String) : String :=
  if provider == some "COMPLETED" then "completed"
  else if provider == some "FAILED" then "failed"
  else "pending"

/-- Modelled from the spec: reconciliation per the §4.3 table, writing only the
fields of the selected branch (`gatewayTransactionId`, `paymentMethod`, `paidAt`
on completion; `failureReason` on failure), amended so that `lastCheckedAt` is
written only on the pending/default branch rather than on every branch. -/
def specReconcile (p : PaymentState) (s : StatusResponse) (now : ℕ) : PaymentState :=
  let st := specStatusTable s.state
  if st == "completed" then
    { p with status := some st,
             gatewayTransactionId := s.transactionId,
             paymentMethod := some (jsStrOr s.paymentInstrumentType "UPI"),
             paidAt := some now }
  else if st == "failed" then
    { p with status := some st,
             failureReason := some (jsStrOr s.error "Payment failed") }
  else
    { p with status := some st, lastCheckedAt := some now }

/-- A completed payment record, used as concrete input below. -/
def completedPayment : PaymentState :=
  { status := some "completed", paidAt := some 1, amount := some 1000 }

/-- A provider response reporting `FAILED`. -/
def failedStatus : StatusResponse := { state := some "FAILED" }

/-- A provider response reporting `COMPLETED`. -/
def completedStatus : StatusResponse :=
  { state := some "COMPLETED", transactionId := some "GPP1" }

/-- C2 counterexample: the reconciliation merge has no monotonicity guard.  An
order whose `payment.status` is already `"completed"` is downgraded to
`"failed"` when a later reconciliation observes provider status `FAILED`,
contradicting the claim that no subsequent reconcile call sets a completed
order to pending or failed. -/
theorem reconcile_downgrades_completed_on_failed_cex :
    completedPayment.status = some "completed" ∧
    (reconcilePayment completedPayment failedStatus 2).status = some "failed" := by
  constructor <;> rfl

/-- C2 amended: the written status is a pure function of the observed provider
state, ignoring the previous status entirely — a reconciliation leaves the
status `"completed"` exactly when it observes `COMPLETED`; observing `FAILED`
(or any non-`COMPLETED` state) overwrites a completed order to `"failed"`
(resp. `"pending"`). -/
theorem reconcile_status_tracks_provider_state (p : PaymentState) (s : StatusResponse) (now : ℕ) :
    ((reconcilePayment p s now).status == some "completed")
      = (s.state == some "COMPLETED") := by
  unfold reconcilePayment
  by_cases hc : s.state = some "COMPLETED"
  · simp [hc]
  · by_cases hf : s.state = some "FAILED" <;> simp [hc, hf]

/-- C3 counterexample: reconciling the same order twice with the same terminal
provider status `COMPLETED` does not leave the stored `paidAt` unchanged — the
second invocation re-stamps it with its own time (`2` instead of `1`), so the
final record differs from the record after a single invocation. -/
theorem reconcile_twice_restamps_paidAt_cex :
    (reconcilePayment (reconcilePayment {} completedStatus 1) completedStatus 2).paidAt = some 2 ∧
    (reconcilePayment {} completedStatus 1).paidAt = some 1 := by
  constructor <;> rfl

/-- C3 amended: reconciling twice with the same provider status equals
reconciling once at the second invocation's time — every field written by the
second pass overwrites the first pass's writes with identical values except the
freshly stamped timestamp (`paidAt` on completion, `lastCheckedAt` on the
default branch), and the reconciliation path performs no email or grant side
effect at all, so none can be duplicated.  In particular, two invocations at
the same instant are literally idempotent. -/
theorem reconcile_absorption (p : PaymentState) (s : StatusResponse) (t1 t2 : ℕ) :
    reconcilePayment (reconcilePayment p s t1) s t2 = reconcilePayment p s t2 := by
  unfold reconcilePayment
  by_cases hc : s.state = some "COMPLETED"
  · simp [hc]
  · by_cases hf : s.state = some "FAILED" <;> simp [hc, hf]

/-- C7 counterexample: a reconciliation that observes `COMPLETED` does not
write `lastCheckedAt` — starting from a record with no `lastCheckedAt`, the
field is still absent after the completion branch runs, contradicting the
claim that `lastCheckedAt` is written on every reconciliation regardless of
branch. -/
theorem reconcile_no_lastCheckedAt_on_completion_cex :
    (reconcilePayment {} completedStatus 7).lastCheckedAt = none ∧
    (reconcilePayment {} completedStatus 7).status = some "completed" := by
  constructor <;> rfl

/-- C7 amended: the reconciliation merge equals the spec's fixed table
(`COMPLETED→completed`, `FAILED→failed`, anything else→`pending`) writing only
that branch's fields — `gatewayTransactionId`, `paymentMethod`, `paidAt` on
completion; `failureReason` on failure — with `lastCheckedAt` written only on
the pending/default branch, not on every reconciliation. -/
theorem reconcile_matches_spec_table (p : PaymentState) (s : StatusResponse) (now : ℕ) :
    reconcilePayment p s now = specReconcile p s now := by
  unfold reconcilePayment specReconcile specStatusTable
  by_cases hc : s.state = some "COMPLETED"
  · simp [hc]
  · by_cases hf : s.state = some "FAILED" <;> simp [hc, hf]

/-- The outward HTTP result of a handler: a JSON response with a status code, a
302 redirect, or a streamed file download. -/
inductive HttpOut where
  | json (status : ℕ) (message : String)
  | redirect302 (url : String)
  | streamFile (path : String) (downloadName : String)
deriving DecidableEq

/-- The row inserted by the create-order handler (customer columns, `items`,
`subtotal`, `total_amount` and the embedded `payment` object). -/
structure OrderRow where
  customer_name : String
  customer_email : String
  customer_phone : String
  items : List OrderItem
  subtotal : ℚ
  total_amount : ℚ
  payment : PaymentState
deriving DecidableEq

/-- The provider-bound payment payload built by `initiatePayment`
(`src/server/services/phonepeService.js` lines 124-145). -/
structure PaymentPayload where
  merchantTransactionId : String
  merchantOrderId : String
  merchantId : String
  amount : ℤ
  expireAfter : ℕ
  redirectUrl : String
deriving DecidableEq

/-- Side effects a handler can perform, in execution order: order-store reads
and writes, product-catalog reads, file-system probes and streams, the outbound
payment-initiation call, and the two authentication primitives of the gateway
client (`verifyCallback`, `checkPaymentStatus`). -/
inductive Act where
  | findOrder (transactionId : String)
  | insertOrder (row : OrderRow)
  | writePayment (orderId : ℕ) (p : PaymentState)
  | productLookup (productId : String)
  | fsExists (path : String)
  | fsStream (path : String)
  | apiInitiate (payload : PaymentPayload)
  | verifyCb
  | statusCheck (merchantOrderId : Option String)
deriving DecidableEq

/-- Whether `pat` is a prefix of `cs` (character-wise, computable by the
kernel). -/
def charsHavePrefix : List Char → List Char → Bool
  | [], _ => true
  | _ :: _, [] => false
  | p :: ps, c :: cs => p == c && charsHavePrefix ps cs

/-- Whether `pat` occurs as a contiguous run anywhere in the list. -/
def charsContain (pat : List Char) : List Char → Bool
  | [] => charsHavePrefix pat []
  | c :: cs => charsHavePrefix pat (c :: cs) || charsContain pat cs

/-- The correlation-id format test of the GET callback handler: the regex
`/^TX_|BBB_/` matches a string that starts with `TX_` or contains `BBB_`
anywhere (the alternation binds the anchor to the first branch only). -/
def txIdPatternTest (s : String) : Bool :=
  charsHavePrefix "TX_".toList s.toList || charsContain "BBB_".toList s.toList

/-- `GET /api/phonepe/callback/:merchantTransactionId`
(`src/server/api/index.js` lines 647-706).  Inputs beyond the path parameter
are the collaborators' answers for this request: the store lookup result, the
outcome of `phonePeService.checkPaymentStatus` (`Except.error` when it throws),
and the current instant.  Returns the recorded action trace and the HTTP
response.  An invalid id or a missing order produces a redirect to the
frontend `payment-error` page; a thrown status check is caught and also
redirects to `payment-error`; otherwise the order's payment sub-record is
rewritten with `reconcilePayment` and the handler redirects per branch. -/
def phonepeCallbackGet (frontendUrl : Option String) (mtid : String)
    (lookup : String → Option Order) (statusRes : Except String StatusResponse)
    (now : ℕ) : List Act × HttpOut :=
  let F := jsStrOr frontendUrl "https://www.thefloo.shop"
  if mtid == "" || !txIdPatternTest mtid then
    ([], .redirect302 (F ++ "/payment-error?error=invalid-transaction"))
  else
    match lookup mtid with
    | none => ([.findOrder mtid], .redirect302 (F ++ "/payment-error?error=order-not-found"))
    | some order =>
      match statusRes with
      | .error _ =>
        ([.findOrder mtid, .statusCheck order.payment.merchantOrderId],
         .redirect302 (F ++ "/payment-error?error=callback-failed"))
      | .ok s =>
        let written := reconcilePayment order.payment s now
        let trace := [Act.findOrder mtid, .statusCheck order.payment.merchantOrderId,
                      .writePayment order.id written]
        if s.state == some "COMPLETED" then
          (trace, .redirect302 (F ++ "/payment-success?orderId=" ++ toString order.id
            ++ "&transactionId=" ++ mtid))
        else if s.state == some "FAILED" then
          (trace, .redirect302 (F ++ "/payment-failed?orderId=" ++ toString order.id))
        else
          (trace, .redirect302 (F ++ "/payment-error?error=cancelled-or-timeout&transactionId="
            ++ mtid))

/-- C8 counterexample: a callback whose correlation id `"bad"` matches neither
`TX_`-prefix nor `BBB_` is rejected before any store lookup (empty action
trace), but the response is a 302 redirect to the frontend `payment-error`
page, not HTTP 400 as the claim states. -/
theorem callback_invalid_id_redirects_not_400_cex :
    phonepeCallbackGet none "bad" (fun _ => none) (Except.error "unused") 0
      = ([], HttpOut.redirect302
          "https://www.thefloo.shop/payment-error?error=invalid-transaction") := by
  rfl

/-- C8 amended: for every callback request whose correlation id fails the
format test, the handler performs no order-store lookup (and no other side
effect) and responds with a 302 redirect to the frontend
`payment-error?error=invalid-transaction` page rather than HTTP 400. -/
theorem callback_invalid_id_no_lookup (frontendUrl : Option String) (mtid : String)
    (lookup : String → Option Order) (statusRes : Except String StatusResponse) (now : ℕ)
    (h : (mtid == "" || !txIdPatternTest mtid) = true) :
    phonepeCallbackGet frontendUrl mtid lookup statusRes now
      = ([], HttpOut.redirect302 (jsStrOr frontendUrl "https://www.thefloo.shop"
          ++ "/payment-error?error=invalid-transaction")) := by
  unfold phonepeCallbackGet
  simp [h]

/-- Witness for `callback_invalid_id_no_lookup` at the concrete id `"bad"`. -/
theorem callback_invalid_id_no_lookup_witness :
    phonepeCallbackGet (some "https://f.example") "bad" (fun _ => none)
        (Except.error "unused") 3
      = ([], HttpOut.redirect302
          "https://f.example/payment-error?error=invalid-transaction") := by
  exact callback_invalid_id_no_lookup (some "https://f.example") "bad" (fun _ => none)
    (Except.error "unused") 3 (by decide)

/-- The JSON body decoded from the base64 `response` field of the POST
callback: `decoded.code`, `decoded.data.merchantTransactionId`,
`decoded.data.transactionId`, `decoded.message`. -/
structure DecodedCallback where
  code : Option String := none
  dataMerchantTransactionId : String := ""
  dataTransactionId : Option String := none
  message : Option String := none
deriving DecidableEq

/-- `POST /api/phonepe/callback` (`src/unnamed/part_001` lines 241-285).
`decode` stands for `JSON.parse(Buffer.from(·, "base64").toString("utf-8"))`
(`Except.error` when the parse throws; the `asyncHandler` wrapper then yields
the global 500 handler).  The handler trusts the decoded payload: it looks up
the order by the callback-supplied transaction id and, when `decoded.code` is
`"PAYMENT_SUCCESS"`, writes `status: "completed"` directly — it never calls
`verifyCallback` and never calls `checkPaymentStatus`, so no `Act.verifyCb`
or `Act.statusCheck` can ever appear in its trace. -/
def phonepeCallbackPost (frontendUrl : String) (responseBase64 : Option String)
    (decode : String → Except String DecodedCallback)
    (lookup : String → Option Order) (now : ℕ) : List Act × HttpOut :=
  if !jsStrTruthy responseBase64 then ([], .json 400 "Invalid callback")
  else
    match decode (responseBase64.getD "") with
    | .error e => ([], .json 500 e)
    | .ok d =>
      match lookup d.dataMerchantTransactionId with
      | none => ([.findOrder d.dataMerchantTransactionId], .json 404 "Order not found")
      | some order =>
        if d.code == some "PAYMENT_SUCCESS" then
          ([.findOrder d.dataMerchantTransactionId,
            .writePayment order.id { order.payment with
              status := some "completed",
              gatewayTransactionId := d.dataTransactionId,
              paidAt := some now }],
           .redirect302 (frontendUrl ++ "/payment-success?orderId=" ++ toString order.id))
        else if d.code == some "PAYMENT_FAILED" then
          ([.findOrder d.dataMerchantTransactionId,
            .writePayment order.id { order.payment with
              status := some "failed",
              failureReason := d.message }],
           .redirect302 (frontendUrl ++ "/payment-failed?orderId=" ++ toString order.id))
        else
          ([.findOrder d.dataMerchantTransactionId],
           .redirect302 (frontendUrl ++ "/payment-pending?orderId=" ++ toString order.id))

/-- A pending order awaiting payment, target of the forged callback below. -/
def pendingOrder : Order :=
  { id := 7,
    payment := { transactionId := some "TX_1", merchantOrderId := some "ORDER_BUNDLE_1",
                 gateway := some "phonepe", amount := some 1000, status := some "pending" } }

/-- The payment record the forged callback below causes to be written: the
pending order's payment with `status: "completed"`, the forged gateway
transaction id, and a fresh `paidAt`. -/
def forgedCompletedPayment : PaymentState :=
  { transactionId := some "TX_1", merchantOrderId := some "ORDER_BUNDLE_1",
    gateway := some "phonepe", amount := some 1000, status := some "completed",
    gatewayTransactionId := some "FORGED", paidAt := some 5 }

/-- C1: evaluating the POST callback handler on a forged, unverifiable payload
(any base64 body decoding to `{code: "PAYMENT_SUCCESS", data:
{merchantTransactionId: "TX_1", transactionId: "FORGED"}}`): the handler's
complete trace is a store lookup followed directly by a write of
`status: "completed"` taken from the callback payload — it contains no
`verifyCallback` and no `checkPaymentStatus` action, so the callback-reported
status is written without its authenticity ever being established. -/
theorem postCallback_writes_completed_without_verification :
    phonepeCallbackPost "F" (some "forgedBase64")
        (fun _ => Except.ok { code := some "PAYMENT_SUCCESS",
                              dataMerchantTransactionId := "TX_1",
                              dataTransactionId := some "FORGED" })
        (fun s => if s == "TX_1" then some pendingOrder else none) 5
      = ([Act.findOrder "TX_1", Act.writePayment 7 forgedCompletedPayment],
         HttpOut.redirect302 "F/payment-success?orderId=7") := by
  rfl

/-- The outcome of `verifyCallback`: an explicit invalid result
(`{isValid: false, error}`), a propagated exception (the `JSON.parse` throw on
a malformed payload — no `try` surrounds it), or a valid result carrying the
decoded data (`{isValid: true, data}`). -/
inductive VerifyResult (α : Type) where
  | invalid (error : String)
  | thrown (error : String)
  | valid (data : α)
deriving DecidableEq

/-- `verifyCallback({response, checksum})`
(`src/server/services/phonepeService.js` lines 221-240).  The Node library
collaborators are parameters: `sha256` for
`crypto.createHash("sha256").update(·).digest("hex")`, `b64decodeUtf8` for
`Buffer.from(·, "base64").toString("utf8")` (total — Node skips invalid
characters), and `jsonParse` for `JSON.parse` (`Except.error` when it throws).
Missing (or falsy) input short-circuits to an invalid result; then the
expected checksum `sha256(response + saltKey) + "###" + saltIndex` is compared
against the supplied one; only on a match are the decode and parse performed. -/
def verifyCallback {α : Type} (sha256 : String → String) (saltKey saltIndex : String)
    (b64decodeUtf8 : String → String) (jsonParse : String → Except String α)
    (response checksum : Option String) : VerifyResult α :=
  if !jsStrTruthy response || !jsStrTruthy checksum then
    .invalid "Missing response or checksum"
  else
    let r := response.getD ""
    let c := checksum.getD ""
    let expected := sha256 (r ++ saltKey) ++ "###" ++ saltIndex
    if !(c == expected) then .invalid "Checksum mismatch"
    else
      match jsonParse (b64decodeUtf8 r) with
      | .error e => .thrown e
      | .ok d => .valid d

/-- C5: `verifyCallback` (a) returns the invalid "missing" result whenever
either input is absent or empty, and does so without consulting the decode or
parse collaborators (the result is the same for any choice of them); (b)
returns the invalid "checksum mismatch" result whenever the supplied checksum
differs from `sha256(response + saltKey) + "###" + saltIndex`, again without
any further processing; (c) when the checksum matches and the base64-decoded
payload fails to JSON-parse, the outcome is the propagated parse exception — a
decode error, a different constructor from every `invalid` (validity) result;
(d) when the checksum matches and the payload parses, the decoded data is
returned as valid. -/
theorem verifyCallback_spec {α : Type} (sha256 : String → String)
    (saltKey saltIndex : String) (b64 b64' : String → String)
    (jp jp' : String → Except String α) (response checksum : Option String) :
    ((!jsStrTruthy response || !jsStrTruthy checksum) = true →
      verifyCallback sha256 saltKey saltIndex b64 jp response checksum
        = .invalid "Missing response or checksum" ∧
      verifyCallback sha256 saltKey saltIndex b64 jp response checksum
        = verifyCallback sha256 saltKey saltIndex b64' jp' response checksum) ∧
    (jsStrTruthy response = true → jsStrTruthy checksum = true →
      checksum.getD "" ≠ sha256 (response.getD "" ++ saltKey) ++ "###" ++ saltIndex →
      verifyCallback sha256 saltKey saltIndex b64 jp response checksum
        = .invalid "Checksum mismatch" ∧
      verifyCallback sha256 saltKey saltIndex b64 jp response checksum
        = verifyCallback sha256 saltKey saltIndex b64' jp' response checksum) ∧
    (∀ e : String, jsStrTruthy response = true → jsStrTruthy checksum = true →
      checksum.getD "" = sha256 (response.getD "" ++ saltKey) ++ "###" ++ saltIndex →
      jp (b64 (response.getD "")) = .error e →
      verifyCallback sha256 saltKey saltIndex b64 jp response checksum = .thrown e ∧
      ∀ msg : String,
        verifyCallback sha256 saltKey saltIndex b64 jp response checksum
          ≠ .invalid msg) ∧
    (∀ d : α, jsStrTruthy response = true → jsStrTruthy checksum = true →
      checksum.getD "" = sha256 (response.getD "" ++ saltKey) ++ "###" ++ saltIndex →
      jp (b64 (response.getD "")) = .ok d →
      verifyCallback sha256 saltKey saltIndex b64 jp response checksum = .valid d) := by
  refine ⟨fun h => ?_, fun h1 h2 hne => ?_, fun e h1 h2 heq hp => ?_, fun d h1 h2 heq hp => ?_⟩
  · constructor <;> simp [verifyCallback, h]
  · have hb : (checksum.getD "" == sha256 (response.getD "" ++ saltKey) ++ "###" ++ saltIndex)
        = false := by
      simpa using hne
    constructor <;> simp [verifyCallback, h1, h2, hb]
  · constructor
    · simp [verifyCallback, h1, h2, heq, hp]
    · intro msg
      simp [verifyCallback, h1, h2, heq, hp]
  · simp [verifyCallback, h1, h2, heq, hp]

/-- Witness for `verifyCallback_spec`: every branch exercised at concrete
inputs, with `sha256` the concrete function prepending `"H:"`, salt key
`"KEY"` and salt index `"1"`, so the expected checksum of response `"cGF5"`
is `"H:cGF5KEY###1"`. -/
theorem verifyCallback_spec_witness :
    verifyCallback (fun s => "H:" ++ s) "KEY" "1" (fun s => s)
        (fun s => if s == "good" then Except.ok 42 else Except.error "SyntaxError")
        (Option.none) (some "H:cGF5KEY###1")
      = VerifyResult.invalid "Missing response or checksum" ∧
    verifyCallback (fun s => "H:" ++ s) "KEY" "1" (fun s => s)
        (fun s => if s == "good" then Except.ok 42 else Except.error "SyntaxError")
        (some "cGF5") (some "tampered")
      = VerifyResult.invalid "Checksum mismatch" ∧
    verifyCallback (fun s => "H:" ++ s) "KEY" "1" (fun s => s)
        (fun s => if s == "good" then Except.ok 42 else Except.error "SyntaxError")
        (some "cGF5") (some "H:cGF5KEY###1")
      = VerifyResult.thrown "SyntaxError" ∧
    verifyCallback (fun s => "H:" ++ s) "KEY" "1" (fun _ => "good")
        (fun s => if s == "good" then Except.ok 42 else Except.error "SyntaxError")
        (some "cGF5") (some "H:cGF5KEY###1")
      = VerifyResult.valid 42 := by
  refine ⟨?_, ?_, ?_, ?_⟩
  · exact ((verifyCallback_spec (fun s => "H:" ++ s) "KEY" "1" (fun s => s) (fun s => s)
      (fun s => if s == "good" then Except.ok 42 else Except.error "SyntaxError")
      (fun s => if s == "good" then Except.ok 42 else Except.error "SyntaxError")
      Option.none (some "H:cGF5KEY###1")).1 (by decide)).1
  · exact ((verifyCallback_spec (fun s => "H:" ++ s) "KEY" "1" (fun s => s) (fun s => s)
      (fun s => if s == "good" then Except.ok 42 else Except.error "SyntaxError")
      (fun s => if s == "good" then Except.ok 42 else Except.error "SyntaxError")
      (some "cGF5") (some "tampered")).2.1 (by decide) (by decide) (by decide)).1
  · exact ((verifyCallback_spec (fun s => "H:" ++ s) "KEY" "1" (fun s => s) (fun s => s)
      (fun s => if s == "good" then Except.ok 42 else Except.error "SyntaxError")
      (fun s => if s == "good" then Except.ok 42 else Except.error "SyntaxError")
      (some "cGF5") (some "H:cGF5KEY###1")).2.2.1 "SyntaxError" (by decide) (by decide)
      (by decide) (by rfl)).1
  · exact (verifyCallback_spec (fun s => "H:" ++ s) "KEY" "1" (fun _ => "good") (fun _ => "good")
      (fun s => if s == "good" then Except.ok 42 else Except.error "SyntaxError")
      (fun s => if s == "good" then Except.ok 42 else Except.error "SyntaxError")
      (some "cGF5") (some "H:cGF5KEY###1")).2.2.2 42 (by decide) (by decide)
      (by decide) (by rfl)

/-- Splitting a character list on a separator, keeping empty segments
(the model of `String.split` used by the path functions below). -/
def splitOnCharAux (sep : Char) : List Char → List Char → List (List Char)
  | [], acc => [acc.reverse]
  | c :: cs, acc =>
    if c == sep then acc.reverse :: splitOnCharAux sep cs []
    else splitOnCharAux sep cs (c :: acc)

/-- Split a character list at every occurrence of `sep`. -/
def splitOnChar (sep : Char) (cs : List Char) : List (List Char) :=
  splitOnCharAux sep cs []

/-- JavaScript `String.prototype.toLowerCase`, character-wise. -/
def jsToLower (s : String) : String := String.mk (s.toList.map Char.toLower)

/-- JavaScript `String.prototype.trim`: strip leading and trailing whitespace. -/
def charsTrim (cs : List Char) : List Char :=
  ((cs.dropWhile Char.isWhitespace).reverse.dropWhile Char.isWhitespace).reverse

/-- Node `path.basename`: the last non-empty `/`-separated segment; a path
with no such segment (`""`, `"/"`) is returned unchanged. -/
def pathBasename (s : String) : String :=
  match ((splitOnChar '/' s.toList).filter (fun seg => !seg.isEmpty)).getLast? with
  | some seg => String.mk seg
  | none => s

/-- Index of the last `'.'` in a character list, if any. -/
def lastDotIdx (cs : List Char) : Option ℕ :=
  match cs.reverse.findIdx? (fun c => c == '.') with
  | none => none
  | some j => some (cs.length - 1 - j)

/-- Node `path.extname` on a basename: the suffix from the last dot, except
that a dot in first position (hidden files such as `".pdf"`) and the special
segment `".."` have no extension. -/
def pathExtname (b : String) : String :=
  match lastDotIdx b.toList with
  | none => ""
  | some 0 => ""
  | some i => if b == ".." then "" else String.mk (b.toList.drop i)

/-- Normalization core of Node `path.resolve`: process segments left to
right, skipping empty and `"."` segments and letting `".."` pop the last
retained segment (a pop at the root is a no-op, as on an absolute path). -/
def resolveSegs : List (List Char) → List (List Char) → List (List Char)
  | acc, [] => acc
  | acc, seg :: rest =>
    if seg.isEmpty || seg == ['.'] then resolveSegs acc rest
    else if seg == ['.', '.'] then resolveSegs acc.dropLast rest
    else resolveSegs (acc ++ [seg]) rest

/-- Join normalized segments with `/`. -/
def joinSegs : List (List Char) → List Char
  | [] => []
  | [seg] => seg
  | seg :: rest => seg ++ '/' :: joinSegs rest

/-- Node `path.resolve(p)` with the process working directory modelled as the
filesystem root: normalize and print as an absolute path. -/
def pathResolveRoot (p : String) : String :=
  String.mk ('/' :: joinSegs (resolveSegs [] (splitOnChar '/' p.toList)))

/-- Node `path.resolve(base, f)` under the same convention: concatenate the
segments of `base` and `f` and normalize. -/
def pathResolve (base f : String) : String :=
  String.mk ('/' :: joinSegs (resolveSegs []
    (splitOnChar '/' base.toList ++ splitOnChar '/' f.toList)))

/-- A product-catalog row as selected by the download handlers. -/
structure Product where
  id : String
  name : Option String := none
  file_name : Option String := none
  local_file_name : Option String := none
  storage_path : Option String := none
deriving DecidableEq

/-- The filename chain of the direct-download handler
(`src/server/api/index.js` line 814): `product.file_name ||
product.local_file_name || (product.name ? name + ".pdf" : null)`. -/
def rawFilenameOf (p : Product) : Option String :=
  if jsStrTruthy p.file_name then p.file_name
  else if jsStrTruthy p.local_file_name then p.local_file_name
  else if jsStrTruthy p.name then some (p.name.getD "" ++ ".pdf")
  else none

/-- Sanitize-and-resolve of the direct-download handler (lines 819-824): take
the basename of the raw filename, force a `.pdf` extension. -/
def finalFilenameOf (product : Product) : Option String :=
  (rawFilenameOf product).map (fun raw =>
    let b := pathBasename raw
    if jsToLower (pathExtname b) == ".pdf" then b else b ++ ".pdf")

/-- `path.parse(f).name`: basename without its extension. -/
def pathParseNamePart (f : String) : String :=
  let b := pathBasename f
  let e := pathExtname b
  String.mk (b.toList.take (b.toList.length - e.toList.length))

/-- One character of the `replace(/[^a-z0-9_\-\. ]/gi, "_")` sanitizer. -/
def sanitizeDownloadChar (c : Char) : Char :=
  if c.isAlphanum || c == '_' || c == '-' || c == '.' || c == ' ' then c else '_'

/-- The `Content-Disposition` filename of the streamed download (lines
839-840): `(product.name || parsedName).replace(...).trim() + ".pdf"`. -/
def safeDownloadName (product : Product) (finalFilename : String) : String :=
  String.mk (charsTrim ((jsStrOr product.name
    (pathParseNamePart finalFilename)).toList.map sanitizeDownloadChar)) ++ ".pdf"

/-- One step of the line-item match (lines 786-789): a `null` item never
matches; otherwise `String(it.productId || it.product_id || it.id) ===
String(productId)`. -/
def downloadsItemMatches (pid : String) (it : Option OrderItem) : Bool :=
  match it with
  | none => false
  | some item =>
    jsStringOfOpt (jsOrOpt item.productId (jsOrOpt item.product_id item.id)) == pid

/-- The product-membership test of the direct-download handler (lines
784-793): a match among the `items` array, with a fallback to the top-level
`order.product_id` column when the items did not match. -/
def downloadsProductIncluded (order : Order) (pid : String) : Bool :=
  let fromItems := match order.items with
    | some items => items.any (downloadsItemMatches pid)
    | none => false
  if fromItems then true
  else if jsStrTruthy order.product_id then jsStringOfOpt order.product_id == pid
  else false

/-- The payment gate of the direct-download handler (line 778):
`!payment.status || String(payment.status).toLowerCase() !== "completed"`. -/
def downloadsStatusCompleted (p : PaymentState) : Bool :=
  match p.status with
  | some st => jsToLower st == "completed"
  | none => false

/-- `GET /api/downloads/:productId?transactionId=...`
(`src/server/api/index.js` lines 757-860): the direct-streaming download
fallback.  Collaborators: the order lookup, the product-row lookup, the
`PRODUCTS_FOLDER` root and the `fs.existsSync` answer.  Checks run in source
order: presence of both parameters, order existence, completed payment,
product membership, product row, configured filename; then the resolved
absolute path must start with `path.resolve(PRODUCTS_FOLDER) + path.sep`
before the file is probed (`fsExists`) and streamed (`fsStream`). -/
def downloadsHandler (productId transactionId : Option String)
    (lookup : String → Option Order) (productRow : String → Option Product)
    (productsFolder : String) (fileExists : String → Bool) : List Act × HttpOut :=
  if !jsStrTruthy productId then ([], .json 400 "productId required")
  else if !jsStrTruthy transactionId then ([], .json 400 "transactionId required")
  else
    let pid := productId.getD ""
    let tid := transactionId.getD ""
    match lookup tid with
    | none => ([.findOrder tid], .json 404 "Order not found")
    | some order =>
      if !downloadsStatusCompleted order.payment then
        ([.findOrder tid], .json 403 "Payment is not completed for this order")
      else if !downloadsProductIncluded order pid then
        ([.findOrder tid], .json 403 "Product not found in this order")
      else
        match productRow pid with
        | none => ([.findOrder tid, .productLookup pid], .json 404 "Product not found")
        | some product =>
          match finalFilenameOf product with
          | none =>
            ([.findOrder tid, .productLookup pid], .json 400 "No file configured for product")
          | some finalFilename =>
            let absolutePath := pathResolve productsFolder finalFilename
            if !charsHavePrefix (pathResolveRoot productsFolder ++ "/").toList
                 absolutePath.toList then
              ([.findOrder tid, .productLookup pid], .json 400 "Invalid file path")
            else if !fileExists absolutePath then
              ([.findOrder tid, .productLookup pid, .fsExists absolutePath],
               .json 404 "File not found")
            else
              ([.findOrder tid, .productLookup pid, .fsExists absolutePath,
                .fsStream absolutePath],
               .streamFile absolutePath (safeDownloadName product finalFilename))

/-- A completed order whose `items` array is empty but whose top-level
`product_id` column is `"P1"`. -/
def fallbackOrder : Order :=
  { id := 9, items := some [], product_id := some "P1",
    payment := { status := some "completed", paidAt := some 1 } }

/-- A product row configured with the file `guide.pdf`. -/
def guideProduct : Product := { id := "P1", file_name := some "guide.pdf" }

/-- C4 counterexample: a download request for product `"P1"` against a
completed order among whose line items `"P1"` does not appear (the `items`
array is empty) is not denied with 403 — the handler falls back to the
order's top-level `product_id` column, authorizes the request, and streams
the file. -/
theorem downloads_grants_via_product_id_fallback_cex :
    downloadsHandler (some "P1") (some "TX_9")
        (fun s => if s == "TX_9" then some fallbackOrder else none)
        (fun s => if s == "P1" then some guideProduct else none)
        "/srv/products" (fun _ => true)
      = ([Act.findOrder "TX_9", Act.productLookup "P1",
          Act.fsExists "/srv/products/guide.pdf", Act.fsStream "/srv/products/guide.pdf"],
         HttpOut.streamFile "/srv/products/guide.pdf" "guide.pdf") := by
  rfl

/-- C4 amended: for a request with both identifiers present whose order
resolves, (a) a `pending` payment status is denied with 403; (b) a
`completed` order for which the membership test succeeds (the productId
appears among the line items, or — the amendment — matches the order's
top-level `product_id` fallback column) is streamed the file once the product
row, its configured filename, the sandboxed path and the on-disk file all
resolve; (c) a `completed` order for which the membership test fails (the
productId neither appears among the line items nor matches `product_id`) is
denied with 403. -/
theorem downloads_authorization_cases (pidO tidO : Option String)
    (lookup : String → Option Order) (productRow : String → Option Product)
    (root : String) (fileExists : String → Bool) (order : Order)
    (hp : jsStrTruthy pidO = true) (ht : jsStrTruthy tidO = true)
    (hl : lookup (tidO.getD "") = some order) :
    (order.payment.status = some "pending" →
      (downloadsHandler pidO tidO lookup productRow root fileExists).2
        = HttpOut.json 403 "Payment is not completed for this order") ∧
    (∀ product fn, order.payment.status = some "completed" →
      downloadsProductIncluded order (pidO.getD "") = true →
      productRow (pidO.getD "") = some product →
      finalFilenameOf product = some fn →
      charsHavePrefix (pathResolveRoot root ++ "/").toList (pathResolve root fn).toList = true →
      fileExists (pathResolve root fn) = true →
      (downloadsHandler pidO tidO lookup productRow root fileExists).2
        = HttpOut.streamFile (pathResolve root fn) (safeDownloadName product fn)) ∧
    (order.payment.status = some "completed" →
      downloadsProductIncluded order (pidO.getD "") = false →
      (downloadsHandler pidO tidO lookup productRow root fileExists).2
        = HttpOut.json 403 "Product not found in this order") := by
  have hpend : (jsToLower "pending" == "completed") = false := by decide
  have hcomp : (jsToLower "completed" == "completed") = true := by decide
  refine ⟨fun hstat => ?_, fun product fn hstat hincl hprow hfn hguard hex => ?_,
    fun hstat hincl => ?_⟩
  · unfold downloadsHandler
    simp [hp, ht, hl, downloadsStatusCompleted, hstat, hpend]
  · have hguard' : charsHavePrefix ((pathResolveRoot root).data ++ ['/'])
        (pathResolve root fn).data = true := by simpa using hguard
    unfold downloadsHandler
    simp [hp, ht, hl, downloadsStatusCompleted, hstat, hcomp, hincl, hprow, hfn, hguard', hex]
  · unfold downloadsHandler
    simp [hp, ht, hl, downloadsStatusCompleted, hstat, hcomp, hincl]

/-- A pending order holding line item `"P1"`. -/
def pendingItemOrder : Order :=
  { id := 3, items := some [some { id := some "P1" }],
    payment := { status := some "pending" } }

/-- A completed order holding line item `"P1"`. -/
def completedItemOrder : Order :=
  { id := 4, items := some [some { id := some "P1", price := some 500, quantity := some 2 }],
    payment := { status := some "completed", paidAt := some 2 } }

/-- A completed order holding only line item `"P2"` and no `product_id`
column. -/
def completedOtherOrder : Order :=
  { id := 5, items := some [some { id := some "P2" }],
    payment := { status := some "completed", paidAt := some 2 } }

/-- Witness for `downloads_authorization_cases`: all three branches at
concrete inputs — a pending order is denied 403, a completed order containing
`"P1"` gets the stream, and a completed order not containing `"P1"` is denied
403. -/
theorem downloads_authorization_cases_witness :
    (downloadsHandler (some "P1") (some "TX_3")
        (fun s => if s == "TX_3" then some pendingItemOrder else none)
        (fun s => if s == "P1" then some guideProduct else none)
        "/srv/products" (fun _ => true)).2
      = HttpOut.json 403 "Payment is not completed for this order" ∧
    (downloadsHandler (some "P1") (some "TX_4")
        (fun s => if s == "TX_4" then some completedItemOrder else none)
        (fun s => if s == "P1" then some guideProduct else none)
        "/srv/products" (fun _ => true)).2
      = HttpOut.streamFile "/srv/products/guide.pdf" "guide.pdf" ∧
    (downloadsHandler (some "P1") (some "TX_5")
        (fun s => if s == "TX_5" then some completedOtherOrder else none)
        (fun s => if s == "P1" then some guideProduct else none)
        "/srv/products" (fun _ => true)).2
      = HttpOut.json 403 "Product not found in this order" := by
  refine ⟨?_, ?_, ?_⟩
  · exact (downloads_authorization_cases (some "P1") (some "TX_3")
      (fun s => if s == "TX_3" then some pendingItemOrder else none)
      (fun s => if s == "P1" then some guideProduct else none)
      "/srv/products" (fun _ => true) pendingItemOrder
      (by decide) (by decide) (by rfl)).1 (by rfl)
  · exact ((downloads_authorization_cases (some "P1") (some "TX_4")
      (fun s => if s == "TX_4" then some completedItemOrder else none)
      (fun s => if s == "P1" then some guideProduct else none)
      "/srv/products" (fun _ => true) completedItemOrder
      (by decide) (by decide) (by rfl)).2.1 guideProduct "guide.pdf"
      (by rfl) (by decide) (by rfl) (by rfl) (by decide) (by rfl))
  · exact (downloads_authorization_cases (some "P1") (some "TX_5")
      (fun s => if s == "TX_5" then some completedOtherOrder else none)
      (fun s => if s == "P1" then some guideProduct else none)
      "/srv/products" (fun _ => true) completedOtherOrder
      (by decide) (by decide) (by rfl)).2.2 (by rfl) (by decide)

/-- C9: the direct-streaming download fallback sandboxes the resolved path.
First conjunct: every path the handler probes (`fs.existsSync`) or streams
lies inside the designated storage root, in the code's own containment sense —
it starts with `path.resolve(PRODUCTS_FOLDER) + path.sep`.  Second conjunct: a
resolved path that escapes the root (fails the containment test) is rejected
with the 400 "Invalid file path" response, the trace showing that no file was
probed, opened or streamed. -/
theorem downloads_path_sandbox (pidO tidO : Option String)
    (lookup : String → Option Order) (productRow : String → Option Product)
    (root : String) (fileExists : String → Bool) :
    (∀ p, (Act.fsExists p ∈ (downloadsHandler pidO tidO lookup productRow root fileExists).1 ∨
           Act.fsStream p ∈ (downloadsHandler pidO tidO lookup productRow root fileExists).1) →
       charsHavePrefix (pathResolveRoot root ++ "/").toList p.toList = true) ∧
    (∀ order product fn,
       jsStrTruthy pidO = true → jsStrTruthy tidO = true →
       lookup (tidO.getD "") = some order →
       downloadsStatusCompleted order.payment = true →
       downloadsProductIncluded order (pidO.getD "") = true →
       productRow (pidO.getD "") = some product →
       finalFilenameOf product = some fn →
       charsHavePrefix (pathResolveRoot root ++ "/").toList (pathResolve root fn).toList = false →
       downloadsHandler pidO tidO lookup productRow root fileExists
         = ([Act.findOrder (tidO.getD ""), Act.productLookup (pidO.getD "")],
            HttpOut.json 400 "Invalid file path")) := by
  constructor
  · intro p hp
    unfold downloadsHandler at hp
    by_cases h1 : jsStrTruthy pidO
    case neg => simp [h1] at hp
    by_cases h2 : jsStrTruthy tidO
    case neg => simp [h1, h2] at hp
    simp only [h1, h2, Bool.not_true, Bool.false_eq_true, if_false] at hp
    cases hl : lookup (tidO.getD "") with
    | none => simp [hl] at hp
    | some order =>
      simp only [hl] at hp
      by_cases hs : downloadsStatusCompleted order.payment
      case neg => simp [hs] at hp
      simp only [hs, Bool.not_true, Bool.false_eq_true, if_false] at hp
      by_cases hi : downloadsProductIncluded order (pidO.getD "")
      case neg => simp [hi] at hp
      simp only [hi, Bool.not_true, Bool.false_eq_true, if_false] at hp
      cases hpr : productRow (pidO.getD "") with
      | none => simp [hpr] at hp
      | some product =>
        simp only [hpr] at hp
        cases hfn : finalFilenameOf product with
        | none => simp [hfn] at hp
        | some fn =>
          simp only [hfn] at hp
          by_cases hg : charsHavePrefix (pathResolveRoot root ++ "/").toList
              (pathResolve root fn).toList = true
          case neg =>
            have hgd : charsHavePrefix ((pathResolveRoot root).data ++ ['/'])
                (pathResolve root fn).data = false := by simpa using hg
            simp [hgd] at hp
          simp only [hg, Bool.not_true, Bool.false_eq_true, if_false] at hp
          by_cases hx : fileExists (pathResolve root fn)
          case neg =>
            simp [hx] at hp
            try subst hp
            simpa using hg
          simp [hx] at hp
          try rcases hp with hp | hp
          all_goals
            try subst hp
            simpa using hg
  · intro order product fn h1 h2 hl hs hi hpr hfn hg
    have hgd : charsHavePrefix ((pathResolveRoot root).data ++ ['/'])
        (pathResolve root fn).data = false := by simpa using hg
    unfold downloadsHandler
    simp [h1, h2, hl, hs, hi, hpr, hfn, hgd]

/-- Witness for `downloads_path_sandbox`: (1) the streamed path of the
concrete grant scenario starts with the resolved root plus separator; (2) with
`PRODUCTS_FOLDER` set to `"/"` the resolved path `"/guide.pdf"` fails the
containment test (`"//"` prefix) and the request is rejected with 400 before
any file-system access. -/
theorem downloads_path_sandbox_witness :
    charsHavePrefix (pathResolveRoot "/srv/products" ++ "/").toList
        "/srv/products/guide.pdf".toList = true ∧
    downloadsHandler (some "P1") (some "TX_4")
        (fun s => if s == "TX_4" then some completedItemOrder else none)
        (fun s => if s == "P1" then some guideProduct else none)
        "/" (fun _ => true)
      = ([Act.findOrder "TX_4", Act.productLookup "P1"],
         HttpOut.json 400 "Invalid file path") := by
  constructor
  · exact (downloads_path_sandbox (some "P1") (some "TX_4")
      (fun s => if s == "TX_4" then some completedItemOrder else none)
      (fun s => if s == "P1" then some guideProduct else none)
      "/srv/products" (fun _ => true)).1 "/srv/products/guide.pdf"
      (Or.inr (by decide))
  · exact (downloads_path_sandbox (some "P1") (some "TX_4")
      (fun s => if s == "TX_4" then some completedItemOrder else none)
      (fun s => if s == "P1" then some guideProduct else none)
      "/" (fun _ => true)).2 completedItemOrder guideProduct "guide.pdf"
      (by decide) (by decide) (by rfl) (by decide) (by decide) (by rfl) (by rfl) (by decide)

/-- The create-order request body
(`{customerName, customerEmail, customerPhone, orderItems, totalAmount}`);
`orderItems` is `none` when the field is not an array. -/
structure CreateOrderBody where
  customerName : Option String := none
  customerEmail : Option String := none
  customerPhone : Option String := none
  orderItems : Option (List OrderItem) := none
  totalAmount : Option ℚ := none
deriving DecidableEq

/-- No character of the list is whitespace (the `[^\s@]` character class,
with `@` excluded structurally by splitting on it). -/
def noWsChars (cs : List Char) : Bool := cs.all (fun c => !c.isWhitespace)

/-- The `isValidEmail` helper of the security middleware
(`src/server/middleware/security.js` lines 217-220): the regex
`^[^\s@]+@[^\s@]+\.[^\s@]+$` — exactly one `@`, a non-empty whitespace-free
local part, and a whitespace-free domain containing a dot that is neither its
first nor its last character. -/
def isValidEmail (s : String) : Bool :=
  match splitOnChar '@' s.toList with
  | [loc, dom] =>
    !loc.isEmpty && noWsChars loc && !dom.isEmpty && noWsChars dom &&
      (dom.drop 1).dropLast.any (fun c => c == '.')
  | _ => false

/-- Outcome of a validation middleware: a rejected response or `next()`. -/
inductive ValidateResult where
  | reject (status : ℕ) (message : String)
  | pass
deriving DecidableEq

/-- The per-item loop of `validatePaymentRequest` (security.js lines 74-88):
the first offending item decides the message. -/
def itemsCheck : List OrderItem → Option String
  | [] => none
  | it :: rest =>
    if !jsStrTruthy it.id || !jsStrTruthy it.name ||
        !jsNumTruthy it.price || !jsNumTruthy it.quantity then
      some "Invalid order item data"
    else if decide (it.price.getD 0 ≤ 0) || decide (it.quantity.getD 0 ≤ 0) then
      some "Item price and quantity must be positive"
    else itemsCheck rest

/-- `validatePaymentRequest` (security.js lines 33-100): name, email, items,
amount presence and bounds checks in source order, the per-item loop, and
finally `Math.abs(calculatedTotal - totalAmount) > 0.01` where
`calculatedTotal = Σ price × quantity`. -/
def validatePaymentRequest (body : CreateOrderBody) : ValidateResult :=
  if !jsStrTruthy body.customerName
      || decide ((charsTrim (body.customerName.getD "").toList).length < 2) then
    .reject 400 "Valid customer name is required"
  else if !jsStrTruthy body.customerEmail || !isValidEmail (body.customerEmail.getD "") then
    .reject 400 "Valid email address is required"
  else
    match body.orderItems with
    | none => .reject 400 "Order items are required"
    | some items =>
      if items.isEmpty then .reject 400 "Order items are required"
      else if !jsNumTruthy body.totalAmount || decide (body.totalAmount.getD 0 ≤ 0) then
        .reject 400 "Valid total amount is required"
      else
        let total := body.totalAmount.getD 0
        if decide (total < 1) || decide (total > 200000) then
          .reject 400 "Amount must be between 1 and 200000"
        else
          match itemsCheck items with
          | some msg => .reject 400 msg
          | none =>
            let calculated :=
              items.foldl (fun sum it => sum + it.price.getD 0 * it.quantity.getD 0) 0
            if decide (jsMathAbs (calculated - total) > 1/100) then
              .reject 400 "Total amount mismatch"
            else .pass

/-- JavaScript `s.slice(-4)`: the last four characters (the whole string when
shorter). -/
def phoneSuffix4 (s : String) : String :=
  String.mk ((s.toList.reverse.take 4).reverse)

/-- `generateMerchantOrderId` (`src/server/api/index.js` lines 84-89):
`ORDER_<productCode>_<last4Phone>_<timestamp>_<random4>`. -/
def generateMerchantOrderId (customerPhone productCode : String) (nowMs rand : ℕ) : String :=
  "ORDER_" ++ productCode ++ "_" ++ phoneSuffix4 customerPhone ++ "_"
    ++ toString nowMs ++ "_" ++ toString rand

/-- The argument object of `phonePeService.initiatePayment`. -/
structure InitiateArgs where
  amount : Option ℚ := none
  customerPhone : Option String := none
  customerName : Option String := none
  customerEmail : Option String := none
  merchantTransactionId : String := ""
  merchantOrderId : String := ""
deriving DecidableEq

/-- The provider's HTTP answer to the pay call, as the service reads it
(`apiResponse.status`, `apiResponse.data?.redirectUrl`, `.state`,
`.message`). -/
structure PhonePeApiResponse where
  status : ℕ
  redirectUrl : Option String := none
  state : Option String := none
  message : Option String := none
deriving DecidableEq

/-- The `{success: true, ...}` return value of `initiatePayment`. -/
structure InitiateSuccess where
  paymentUrl : String
  merchantTransactionId : String
  merchantOrderId : String
  state : Option String
deriving DecidableEq

/-- The provider payload built by `initiatePayment`
(`src/server/services/phonepeService.js` lines 124-145): the rupee amount is
converted with `Math.round(amount * 100)`, the expiry is the literal
`expireAfter: 1200`, and the redirect target points back into the backend
callback route. -/
def builtPayload (merchantId backendUrl : String) (a : InitiateArgs) : PaymentPayload :=
  { merchantTransactionId := a.merchantTransactionId,
    merchantOrderId := a.merchantOrderId,
    merchantId := merchantId,
    amount := jsMathRound (a.amount.getD 0 * 100),
    expireAfter := 1200,
    redirectUrl := backendUrl ++ "/api/phonepe/callback/" ++ a.merchantTransactionId }

/-- `initiatePayment` (phonepeService.js lines 97-189).  First component: the
payload actually sent to the provider (`none` when validation or the missing
token threw before the axios call).  Second: the service's result —
`validatePaymentData` throws on a falsy/non-positive amount, a short phone or
a blank name; a missing OAuth token is a hard error; an HTTP 200 answer with a
redirect URL succeeds; anything else becomes the caught
`{success: false, error}`. -/
def initiatePayment (merchantId backendUrl : String) (token : Option String)
    (api : PaymentPayload → PhonePeApiResponse) (a : InitiateArgs) :
    Option PaymentPayload × Except String InitiateSuccess :=
  if !jsNumTruthy a.amount || decide (a.amount.getD 0 ≤ 0) then
    (none, .error "Invalid amount")
  else if !jsStrTruthy a.customerPhone
      || decide ((a.customerPhone.getD "").length < 10) then
    (none, .error "Invalid phone number")
  else if !jsStrTruthy (a.customerName.map (fun s => String.mk (charsTrim s.toList))) then
    (none, .error "Customer name required")
  else
    match token with
    | none => (none, .error "Access token required for PhonePe v2 payment")
    | some _ =>
      let payload := builtPayload merchantId backendUrl a
      let resp := api payload
      if resp.status == 200 && jsStrTruthy resp.redirectUrl then
        (some payload,
         .ok { paymentUrl := resp.redirectUrl.getD "",
               merchantTransactionId := a.merchantTransactionId,
               merchantOrderId := a.merchantOrderId,
               state := resp.state })
      else (some payload, .error (jsStrOr resp.message "Unexpected API response"))

/-- The arguments the create-order route passes to `initiatePayment`
(index.js lines 223-230). -/
def initArgsOf (body : CreateOrderBody) (nowMs rand : ℕ) : InitiateArgs :=
  { amount := body.totalAmount,
    customerPhone := body.customerPhone,
    customerName := body.customerName,
    customerEmail := body.customerEmail,
    merchantTransactionId := "TX_" ++ toString nowMs,
    merchantOrderId := generateMerchantOrderId (body.customerPhone.getD "") "BUNDLE" nowMs rand }

/-- The pending payment sub-record of the freshly inserted order row
(index.js lines 210-216): the amount stays in rupees. -/
def pendingPaymentOf (body : CreateOrderBody) (nowMs rand : ℕ) : PaymentState :=
  { transactionId := some ("TX_" ++ toString nowMs),
    merchantOrderId :=
      some (generateMerchantOrderId (body.customerPhone.getD "") "BUNDLE" nowMs rand),
    gateway := some "phonepe",
    amount := body.totalAmount,
    status := some "pending" }

/-- The order row persisted before the gateway is contacted (index.js lines
203-221): `subtotal` and `total_amount` both carry the rupee total. -/
def orderRowOf (body : CreateOrderBody) (nowMs rand : ℕ) : OrderRow :=
  { customer_name := body.customerName.getD "",
    customer_email := body.customerEmail.getD "",
    customer_phone := body.customerPhone.getD "",
    items := body.orderItems.getD [],
    subtotal := body.totalAmount.getD 0,
    total_amount := body.totalAmount.getD 0,
    payment := pendingPaymentOf body nowMs rand }

/-- `POST /api/phonepe/create-order` (`src/server/api/index.js` lines
194-243).  Presence of the five fields is the only request validation; the
order row is then inserted with a pending payment, `initiatePayment` is
called, and depending on its outcome the payment sub-record is rewritten with
the payment URL (HTTP 200) or with `status: "failed"` (HTTP 502).
`newOrderRowId` is the store-assigned id of the inserted row, `nowMs` the
`Date.now()` instant and `rand` the 4-digit random nonce. -/
def createOrderHandler (merchantId backendUrl : String) (token : Option String)
    (api : PaymentPayload → PhonePeApiResponse) (newOrderRowId nowMs rand : ℕ)
    (body : CreateOrderBody) : List Act × HttpOut :=
  if !jsStrTruthy body.customerName || !jsStrTruthy body.customerEmail ||
      !jsStrTruthy body.customerPhone || body.orderItems.isNone ||
      !jsNumTruthy body.totalAmount then
    ([], .json 400 "Missing required fields")
  else
    let payment0 := pendingPaymentOf body nowMs rand
    let initRes := initiatePayment merchantId backendUrl token api (initArgsOf body nowMs rand)
    let base := Act.insertOrder (orderRowOf body nowMs rand) ::
      (match initRes.1 with | some pl => [Act.apiInitiate pl] | none => [])
    match initRes.2 with
    | .ok k =>
      if !(k.paymentUrl == "") then
        let finalPayment := { payment0 with
          transactionId := some (jsStrOr (some k.merchantTransactionId)
            ("TX_" ++ toString nowMs)),
          paymentUrl := some k.paymentUrl }
        (base ++ [Act.writePayment newOrderRowId finalPayment], .json 200 "success")
      else
        let failedPayment := { payment0 with
          status := some "failed",
          failureReason := some "Payment failed" }
        (base ++ [Act.writePayment newOrderRowId failedPayment],
         .json 502 "Payment initiation failed")
    | .error e =>
      let failedPayment := { payment0 with
        status := some "failed",
        failureReason := some (if e == "" then "Payment failed" else e) }
      (base ++ [Act.writePayment newOrderRowId failedPayment],
       .json 502 (if e == "" then "Payment initiation failed" else e))

/-- When `initiatePayment` succeeds, the payload it sent to the provider is
exactly `builtPayload` — the axios call was reached, after validation and the
token check. -/
theorem initiatePayment_ok_sent (merchantId backendUrl : String) (token : Option String)
    (api : PaymentPayload → PhonePeApiResponse) (a : InitiateArgs) (k : InitiateSuccess)
    (h : (initiatePayment merchantId backendUrl token api a).2 = Except.ok k) :
    (initiatePayment merchantId backendUrl token api a).1
      = some (builtPayload merchantId backendUrl a) := by
  unfold initiatePayment at h ⊢
  split_ifs at h ⊢
  all_goals try simp at h
  cases token with
  | none => simp at h
  | some t =>
    simp only [Option.isSome_some] at h ⊢
    split at h <;> simp_all

/-- C10: whenever the create-order route answers 200 (a successful payment
initiation), the payload sent to the provider carried
`amount = Math.round(totalAmount × 100)` — the rupee total converted to paise
with rounding — and the fixed `expireAfter: 1200` seconds, while the order row
persisted to the store keeps the amount in rupees, both in
`payment.amount` and in `total_amount`. -/
theorem initiation_amount_paise_expiry (merchantId backendUrl : String) (token : Option String)
    (api : PaymentPayload → PhonePeApiResponse) (newOrderRowId nowMs rand : ℕ)
    (body : CreateOrderBody)
    (h200 : (createOrderHandler merchantId backendUrl token api newOrderRowId nowMs rand body).2
      = HttpOut.json 200 "success") :
    Act.apiInitiate (builtPayload merchantId backendUrl (initArgsOf body nowMs rand))
        ∈ (createOrderHandler merchantId backendUrl token api newOrderRowId nowMs rand body).1 ∧
    (builtPayload merchantId backendUrl (initArgsOf body nowMs rand)).amount
        = jsMathRound (body.totalAmount.getD 0 * 100) ∧
    (builtPayload merchantId backendUrl (initArgsOf body nowMs rand)).expireAfter = 1200 ∧
    Act.insertOrder (orderRowOf body nowMs rand)
        ∈ (createOrderHandler merchantId backendUrl token api newOrderRowId nowMs rand body).1 ∧
    (orderRowOf body nowMs rand).payment.amount = body.totalAmount ∧
    (orderRowOf body nowMs rand).total_amount = body.totalAmount.getD 0 := by
  have hmem :
      Act.apiInitiate (builtPayload merchantId backendUrl (initArgsOf body nowMs rand))
          ∈ (createOrderHandler merchantId backendUrl token api newOrderRowId nowMs rand body).1 ∧
      Act.insertOrder (orderRowOf body nowMs rand)
          ∈ (createOrderHandler merchantId backendUrl token api newOrderRowId nowMs rand body).1 := by
    unfold createOrderHandler at h200 ⊢
    by_cases hv : (!jsStrTruthy body.customerName || !jsStrTruthy body.customerEmail ||
        !jsStrTruthy body.customerPhone || body.orderItems.isNone ||
        !jsNumTruthy body.totalAmount) = true
    · simp [hv] at h200
    · simp only [hv, Bool.false_eq_true, if_false] at h200 ⊢
      rcases hres : (initiatePayment merchantId backendUrl token api
          (initArgsOf body nowMs rand)).2 with e | k
      · rw [hres] at h200
        simp at h200
      · have hsent := initiatePayment_ok_sent merchantId backendUrl token api
          (initArgsOf body nowMs rand) k hres
        rw [hsent]
        constructor <;> (repeat' split) <;> simp_all
  exact ⟨hmem.1, rfl, rfl, hmem.2, rfl, rfl⟩

/-- A provider that accepts the pay call and returns a checkout redirect. -/
def acceptingApi : PaymentPayload → PhonePeApiResponse :=
  fun _ => { status := 200, redirectUrl := some "https://pp/redirect" }

/-- A well-formed create-order body whose total matches its single line item
(`500 × 2 = 1000`). -/
def matchedBody : CreateOrderBody :=
  { customerName := some "Alice", customerEmail := some "a@b.co",
    customerPhone := some "9876543210",
    orderItems := some [{ id := some "P1", name := some "Course",
                          price := some 500, quantity := some 2 }],
    totalAmount := some 1000 }

/-- Witness for `initiation_amount_paise_expiry` at a concrete successful
initiation: rupee total 1000, paise amount 100000, expiry 1200. -/
theorem initiation_amount_paise_expiry_witness :
    Act.apiInitiate (builtPayload "M1" "https://api.example" (initArgsOf matchedBody 171 1234))
        ∈ (createOrderHandler "M1" "https://api.example" (some "tok") acceptingApi
            42 171 1234 matchedBody).1 ∧
    (builtPayload "M1" "https://api.example" (initArgsOf matchedBody 171 1234)).amount
        = jsMathRound (matchedBody.totalAmount.getD 0 * 100) ∧
    (builtPayload "M1" "https://api.example" (initArgsOf matchedBody 171 1234)).expireAfter
        = 1200 ∧
    Act.insertOrder (orderRowOf matchedBody 171 1234)
        ∈ (createOrderHandler "M1" "https://api.example" (some "tok") acceptingApi
            42 171 1234 matchedBody).1 ∧
    (orderRowOf matchedBody 171 1234).payment.amount = matchedBody.totalAmount ∧
    (orderRowOf matchedBody 171 1234).total_amount = matchedBody.totalAmount.getD 0 := by
  exact initiation_amount_paise_expiry "M1" "https://api.example" (some "tok") acceptingApi
    42 171 1234 matchedBody (by rfl)

/-- The same body with a grossly mismatched total: the single line item sums
to `500 × 2 = 1000` rupees, but `totalAmount` claims 5000 —
`|1000 − 5000| = 4000 > 0.01`. -/
def mismatchBody : CreateOrderBody :=
  { customerName := some "Alice", customerEmail := some "a@b.co",
    customerPhone := some "9876543210",
    orderItems := some [{ id := some "P1", name := some "Course",
                          price := some 500, quantity := some 2 }],
    totalAmount := some 5000 }

/-- The payment record the create-order route persists after the successful
initiation for `mismatchBody` at instant 171 with nonce 1234. -/
def mismatchFinalPayment : PaymentState :=
  { transactionId := some "TX_171",
    merchantOrderId := some "ORDER_BUNDLE_3210_171_1234",
    gateway := some "phonepe", amount := some 5000, status := some "pending",
    paymentUrl := some "https://pp/redirect" }

/-- C6: the create-order route checks only the presence of its five fields —
it never verifies the total.  On a request whose `totalAmount` (5000) differs
from `Σ price × quantity` (1000) by far more than 0.01, the order row is
inserted, the payment is initiated and the route answers 200 — the order is
persisted, not rejected with 400.  The repository's own
`validatePaymentRequest` middleware (security.js), which no route mounts,
would have rejected exactly this body with 400 "Total amount mismatch". -/
theorem createOrder_persists_mismatched_total :
    createOrderHandler "M1" "https://api.example" (some "tok") acceptingApi
        42 171 1234 mismatchBody
      = ([Act.insertOrder (orderRowOf mismatchBody 171 1234),
          Act.apiInitiate (builtPayload "M1" "https://api.example"
            (initArgsOf mismatchBody 171 1234)),
          Act.writePayment 42 mismatchFinalPayment],
         HttpOut.json 200 "success") ∧
    validatePaymentRequest mismatchBody
      = ValidateResult.reject 400 "Total amount mismatch" := by
  constructor
  · rfl
  · norm_num [validatePaymentRequest, mismatchBody, isValidEmail, itemsCheck, charsTrim,
      jsStrTruthy, jsNumTruthy, jsMathAbs, splitOnChar, splitOnCharAux, noWsChars]
    decide
